import Mathlib

set_option maxRecDepth 100000
set_option maxHeartbeats 1000000

/-! Formal model of the liboqs node addon crypto layer of this repository:
`src/backend/addons/liboqs-native/src/liboqs_addon.cpp` (registry backend,
class `LibOQSAddon`, built on the liboqs `OQS_KEM` / `OQS_SIG` API) and
`src/backend/addons/liboqs-native/src/liboqs_addon_direct.cpp` (fixed backend,
class `LibOQSDirectAddon`, built directly on the PQClean
`PQCLEAN_MLKEM768_CLEAN_*` / `PQCLEAN_MLDSA65_CLEAN_*` entry points).

Byte buffers are modelled as `List Nat`; the underlying primitive library is
out of scope for the spec ("treated as an opaque correct primitive library"),
so it enters as an explicit parameter: a structure recording the entry points
the addon calls together with the documented facts of the ML-DSA-65 interface
that the addon's buffer management relies on. -/

/-- Raw byte buffers exchanged at the addon boundary (contents of an N-API Buffer). -/
abbrev Bytes := List Nat

/-- Errors surfaced to JavaScript: the addon throws `Napi::TypeError` for
argument-shape errors and `Napi::Error` for operation failures, each carrying
the message string passed to `ThrowAsJavaScriptException`. -/
inductive AddonError where
  | typeError (message : String)
  | opError (message : String)
deriving DecidableEq

/-- Outcome of one native method call: either a returned value, or a thrown
JavaScript exception (the C++ throws and returns `env.Null()`). -/
inductive NapiResult (α : Type) where
  | ok (value : α)
  | thrown (e : AddonError)
deriving DecidableEq

/-- Model of a primitive writing its output into a pre-allocated `std::vector`
buffer: the first `src.length` bytes are overwritten, any remaining bytes keep
their prior contents, and the buffer's size is unchanged. -/
def writeInto (buf src : Bytes) : Bytes :=
  src.take buf.length ++ buf.drop (min src.length buf.length)

/-- Interface of the external ML-DSA-65 signature primitive: liboqs
`OQS_SIG_new(OQS_SIG_alg_ml_dsa_65)` with `OQS_SIG_keypair` / `OQS_SIG_sign` /
`OQS_SIG_verify`, and PQClean `PQCLEAN_MLDSA65_CLEAN_crypto_sign_keypair` /
`crypto_sign` / `crypto_sign_open`. The `Nat` argument of `keypair` stands for
the entropy the call consumes, and `none` models a non-success status.
`coreSign` / `coreVerify` are the detached-signature operations; the two length
fields record the documented ML-DSA-65 facts the addon's buffer management
relies on (FIPS 204): a detached ML-DSA-65 signature is exactly 3309 bytes, and
verification accepts only 3309-byte signatures. -/
structure MLDSAPrim where
  keypair : Nat → Option (Bytes × Bytes)
  coreSign : Bytes → Bytes → Option Bytes
  coreVerify : Bytes → Bytes → Bytes → Bool
  coreSign_length : ∀ m sk s, coreSign m sk = some s → s.length = 3309
  coreVerify_length : ∀ m s pk, coreVerify m s pk = true → s.length = 3309

/-- PQClean `crypto_sign`: writes the combined signed message
`signature ++ message` and reports `smlen = CRYPTO_BYTES + mlen`. -/
def MLDSAPrim.cryptoSign (p : MLDSAPrim) (m sk : Bytes) : Option Bytes :=
  (p.coreSign m sk).map (fun s => s ++ m)

/-- PQClean `crypto_sign_open`: treats the first 3309 bytes of the signed
message as the signature and the rest as the message, verifies, and returns
the recovered message on success (status 0), `none` otherwise. -/
def MLDSAPrim.cryptoSignOpen (p : MLDSAPrim) (sm pk : Bytes) : Option Bytes :=
  if 3309 ≤ sm.length ∧ p.coreVerify (sm.drop 3309) (sm.take 3309) pk = true then
    some (sm.drop 3309)
  else
    none

/-- Interface of the external ML-KEM-768 keypair primitive (liboqs
`OQS_KEM_keypair` on `OQS_KEM_alg_ml_kem_768`, PQClean
`PQCLEAN_MLKEM768_CLEAN_crypto_kem_keypair`); the `Nat` argument stands for
the entropy consumed and `none` models a non-success status. The encapsulate
and decapsulate entry points are absent because the addon never calls them:
both of its KEM encapsulation methods are unimplemented stubs. -/
structure MLKEMPrim where
  keypair : Nat → Option (Bytes × Bytes)

/-- Algorithm registry of the loaded liboqs library, as enumerated by
`OQS_KEM_algs_length` / `OQS_KEM_alg_identifier` and `OQS_SIG_algs_length` /
`OQS_SIG_alg_identifier`. liboqs always registers ML-KEM-768 among its KEMs
and ML-DSA-65 among its signature schemes. -/
structure OQSRegistry where
  kemAlgs : List String
  sigAlgs : List String
  mlkem768_registered : "ML-KEM-768" ∈ kemAlgs
  mldsa65_registered : "ML-DSA-65" ∈ sigAlgs

/-- Return object of `GenerateKEMKeyPair` (both backends build the same shape). -/
structure KemKeyPairResult where
  publicKey : Bytes
  secretKey : Bytes
  algorithm : String
  publicKeyLength : Nat
  secretKeyLength : Nat
  ciphertextLength : Nat
  sharedSecretLength : Nat
deriving DecidableEq

/-- Return object of `GenerateSignatureKeyPair` (both backends build the same shape). -/
structure SigKeyPairResult where
  publicKey : Bytes
  secretKey : Bytes
  algorithm : String
  publicKeyLength : Nat
  secretKeyLength : Nat
  maxSignatureLength : Nat
deriving DecidableEq

/-- liboqs descriptor constant `kem->length_public_key` for ML-KEM-768. -/
abbrev OQS_KEM_ml_kem_768_length_public_key : Nat := 1184

/-- liboqs descriptor constant `kem->length_secret_key` for ML-KEM-768. -/
abbrev OQS_KEM_ml_kem_768_length_secret_key : Nat := 2400

/-- liboqs descriptor constant `kem->length_ciphertext` for ML-KEM-768. -/
abbrev OQS_KEM_ml_kem_768_length_ciphertext : Nat := 1088

/-- liboqs descriptor constant `kem->length_shared_secret` for ML-KEM-768. -/
abbrev OQS_KEM_ml_kem_768_length_shared_secret : Nat := 32

/-- liboqs descriptor constant `sig->length_public_key` for ML-DSA-65. -/
abbrev OQS_SIG_ml_dsa_65_length_public_key : Nat := 1952

/-- liboqs descriptor constant `sig->length_secret_key` for ML-DSA-65. -/
abbrev OQS_SIG_ml_dsa_65_length_secret_key : Nat := 4000

/-- liboqs descriptor constant `sig->length_signature` for ML-DSA-65. -/
abbrev OQS_SIG_ml_dsa_65_length_signature : Nat := 3309

/-- Constant from `liboqs_addon_direct.cpp` line 20. -/
abbrev MLKEM768_PUBLICKEYBYTES : Nat := 1184

/-- Constant from `liboqs_addon_direct.cpp` line 21. -/
abbrev MLKEM768_SECRETKEYBYTES : Nat := 2400

/-- Constant from `liboqs_addon_direct.cpp` line 22. -/
abbrev MLKEM768_CIPHERTEXTBYTES : Nat := 1088

/-- Constant from `liboqs_addon_direct.cpp` line 23. -/
abbrev MLKEM768_SHAREDSECRETBYTES : Nat := 32

/-- Constant from `liboqs_addon_direct.cpp` line 25. -/
abbrev MLDSA65_PUBLICKEYBYTES : Nat := 1952

/-- Constant from `liboqs_addon_direct.cpp` line 26. -/
abbrev MLDSA65_SECRETKEYBYTES : Nat := 4000

/-- Constant from `liboqs_addon_direct.cpp` line 27. -/
abbrev MLDSA65_SIGNATURE_BYTES : Nat := 3309

/-- Registry backend `LibOQSAddon::GenerateKEMKeyPair`: allocates buffers of the
descriptor lengths, lets the primitive write into them, and returns full-size
copies together with the descriptor metadata; throws when the primitive
reports non-success. -/
def LibOQSAddon.generateKEMKeyPair (kem : MLKEMPrim) (entropy : Nat) :
    NapiResult KemKeyPairResult :=
  match kem.keypair entropy with
  | none => .thrown (AddonError.opError ("Failed to generate ML-KEM-768 key pair"))
  | some (pk, sk) =>
      .ok { publicKey := writeInto (List.replicate OQS_KEM_ml_kem_768_length_public_key 0) pk
            secretKey := writeInto (List.replicate OQS_KEM_ml_kem_768_length_secret_key 0) sk
            algorithm := "ML-KEM-768"
            publicKeyLength := OQS_KEM_ml_kem_768_length_public_key
            secretKeyLength := OQS_KEM_ml_kem_768_length_secret_key
            ciphertextLength := OQS_KEM_ml_kem_768_length_ciphertext
            sharedSecretLength := OQS_KEM_ml_kem_768_length_shared_secret }

/-- Registry backend `LibOQSAddon::GenerateSignatureKeyPair`. -/
def LibOQSAddon.generateSignatureKeyPair (p : MLDSAPrim) (entropy : Nat) :
    NapiResult SigKeyPairResult :=
  match p.keypair entropy with
  | none => .thrown (AddonError.opError ("Failed to generate ML-DSA-65 key pair"))
  | some (pk, sk) =>
      .ok { publicKey := writeInto (List.replicate OQS_SIG_ml_dsa_65_length_public_key 0) pk
            secretKey := writeInto (List.replicate OQS_SIG_ml_dsa_65_length_secret_key 0) sk
            algorithm := "ML-DSA-65"
            publicKeyLength := OQS_SIG_ml_dsa_65_length_public_key
            secretKeyLength := OQS_SIG_ml_dsa_65_length_secret_key
            maxSignatureLength := OQS_SIG_ml_dsa_65_length_signature }

/-- Registry backend `LibOQSAddon::SignData`: allocates a buffer of
`sig->length_signature` bytes, lets `OQS_SIG_sign` write the signature and
report its actual length, and resizes the buffer to that reported length. -/
def LibOQSAddon.signData (p : MLDSAPrim) (data secret_key : Bytes) :
    NapiResult Bytes :=
  match p.coreSign data secret_key with
  | none => .thrown (AddonError.opError ("Failed to sign data with ML-DSA-65"))
  | some s => .ok ((writeInto (List.replicate OQS_SIG_ml_dsa_65_length_signature 0) s).take s.length)

/-- Registry backend `LibOQSAddon::VerifySignature`: passes the three buffers
(with their lengths) straight to `OQS_SIG_verify` — no length validation of its
own — and maps the returned status to `status == OQS_SUCCESS`. -/
def LibOQSAddon.verifySignature (p : MLDSAPrim) (data signature public_key : Bytes) :
    NapiResult Bool :=
  .ok (p.coreVerify data signature public_key)

/-- Registry backend `LibOQSAddon::GetAvailableAlgorithms`: copies every
identifier the liboqs registry enumerates into the `kems` and `signatures`
arrays of the result. -/
def LibOQSAddon.getAvailableAlgorithms (reg : OQSRegistry) :
    List String × List String :=
  (reg.kemAlgs, reg.sigAlgs)

/-- Algorithm names a keypair-generation call of the addon can produce: the two
keypair methods (in both backends) take no algorithm argument and are hardcoded
to `OQS_KEM_alg_ml_kem_768` and `OQS_SIG_alg_ml_dsa_65` (respectively the
PQClean ML-KEM-768 / ML-DSA-65 entry points), as the `algorithm` field of their
results records. -/
def LibOQSAddon.acceptedKeypairAlgorithms : List String :=
  ["ML-KEM-768", "ML-DSA-65"]

/-- Registry backend `LibOQSAddon::KEMEncapsulate`: a stub that throws for every
input without reading its arguments. -/
def LibOQSAddon.kemEncapsulate (_public_key : Bytes) : NapiResult (Bytes × Bytes) :=
  .thrown (AddonError.opError ("KEMEncapsulate not yet implemented"))

/-- Registry backend `LibOQSAddon::KEMDecapsulate`: a stub that throws for every
input without reading its arguments. -/
def LibOQSAddon.kemDecapsulate (_secret_key _ciphertext : Bytes) : NapiResult Bytes :=
  .thrown (AddonError.opError ("KEMDecapsulate not yet implemented"))

/-- Fixed backend `LibOQSDirectAddon::GenerateKEMKeyPair`: same shape as the
registry backend but with the compile-time constants. -/
def LibOQSDirectAddon.generateKEMKeyPair (kem : MLKEMPrim) (entropy : Nat) :
    NapiResult KemKeyPairResult :=
  match kem.keypair entropy with
  | none => .thrown (AddonError.opError ("Failed to generate ML-KEM-768 key pair"))
  | some (pk, sk) =>
      .ok { publicKey := writeInto (List.replicate MLKEM768_PUBLICKEYBYTES 0) pk
            secretKey := writeInto (List.replicate MLKEM768_SECRETKEYBYTES 0) sk
            algorithm := "ML-KEM-768"
            publicKeyLength := MLKEM768_PUBLICKEYBYTES
            secretKeyLength := MLKEM768_SECRETKEYBYTES
            ciphertextLength := MLKEM768_CIPHERTEXTBYTES
            sharedSecretLength := MLKEM768_SHAREDSECRETBYTES }

/-- Fixed backend `LibOQSDirectAddon::GenerateSignatureKeyPair`. -/
def LibOQSDirectAddon.generateSignatureKeyPair (p : MLDSAPrim) (entropy : Nat) :
    NapiResult SigKeyPairResult :=
  match p.keypair entropy with
  | none => .thrown (AddonError.opError ("Failed to generate ML-DSA-65 key pair"))
  | some (pk, sk) =>
      .ok { publicKey := writeInto (List.replicate MLDSA65_PUBLICKEYBYTES 0) pk
            secretKey := writeInto (List.replicate MLDSA65_SECRETKEYBYTES 0) sk
            algorithm := "ML-DSA-65"
            publicKeyLength := MLDSA65_PUBLICKEYBYTES
            secretKeyLength := MLDSA65_SECRETKEYBYTES
            maxSignatureLength := MLDSA65_SIGNATURE_BYTES }

/-- Fixed backend `LibOQSDirectAddon::SignData`: allocates a combined buffer of
`data.length + MLDSA65_SIGNATURE_BYTES` bytes, lets `crypto_sign` write the
signed message into it, and returns a copy of the first
`MLDSA65_SIGNATURE_BYTES` bytes of that buffer. -/
def LibOQSDirectAddon.signData (p : MLDSAPrim) (data secret_key : Bytes) :
    NapiResult Bytes :=
  match p.cryptoSign data secret_key with
  | none => .thrown (AddonError.opError ("Failed to sign data with ML-DSA-65"))
  | some sm =>
      .ok ((writeInto (List.replicate (data.length + MLDSA65_SIGNATURE_BYTES) 0) sm).take
        MLDSA65_SIGNATURE_BYTES)

/-- Fixed backend `LibOQSDirectAddon::VerifySignature`: reconstructs the signed
message `signature ++ data` — with no validation of either buffer's length —
and maps the status of `crypto_sign_open` on it to `result == 0`. -/
def LibOQSDirectAddon.verifySignature (p : MLDSAPrim) (data signature public_key : Bytes) :
    NapiResult Bool :=
  .ok ((p.cryptoSignOpen (signature ++ data) public_key).isSome)

/-- Fixed backend `LibOQSDirectAddon::KEMEncapsulate`: a stub that throws for
every input without reading its arguments. -/
def LibOQSDirectAddon.kemEncapsulate (_public_key : Bytes) : NapiResult (Bytes × Bytes) :=
  .thrown (AddonError.opError ("KEMEncapsulate not yet implemented"))

/-- Fixed backend `LibOQSDirectAddon::KEMDecapsulate`: a stub that throws for
every input without reading its arguments. -/
def LibOQSDirectAddon.kemDecapsulate (_secret_key _ciphertext : Bytes) : NapiResult Bytes :=
  .thrown (AddonError.opError ("KEMDecapsulate not yet implemented"))

/-- One method call on an addon instance, with its JavaScript-visible
arguments (the entropy argument stands for the randomness a keypair call
consumes from the system). -/
inductive AddonOp where
  | generateKEMKeyPair (entropy : Nat)
  | generateSignatureKeyPair (entropy : Nat)
  | signData (data secret_key : Bytes)
  | verifySignature (data signature public_key : Bytes)
  | kemEncapsulate (public_key : Bytes)
  | kemDecapsulate (secret_key ciphertext : Bytes)

/-- Value returned to JavaScript by one method call. -/
inductive AddonOutput where
  | kemKeys (r : NapiResult KemKeyPairResult)
  | sigKeys (r : NapiResult SigKeyPairResult)
  | buffer (r : NapiResult Bytes)
  | flag (r : NapiResult Bool)
  | encapsed (r : NapiResult (Bytes × Bytes))

/-- Per-instance state of an addon object. The C++ classes declare no mutable
data members (only the static N-API constructor reference, which no method
reads): an instance carries nothing but its immutable bindings to the
primitive library, re-resolved fresh by `OQS_SIG_new` on every call. -/
structure AddonState where
  mldsa : MLDSAPrim
  mlkem : MLKEMPrim

/-- One step of the registry backend: dispatch a method call on an instance,
returning the instance state after the call and the value handed back to
JavaScript. -/
def LibOQSAddon.execOp (st : AddonState) (op : AddonOp) : AddonState × AddonOutput :=
  match op with
  | .generateKEMKeyPair r =>
      (st, .kemKeys (LibOQSAddon.generateKEMKeyPair st.mlkem r))
  | .generateSignatureKeyPair r =>
      (st, .sigKeys (LibOQSAddon.generateSignatureKeyPair st.mldsa r))
  | .signData d sk =>
      (st, .buffer (LibOQSAddon.signData st.mldsa d sk))
  | .verifySignature d s pk =>
      (st, .flag (LibOQSAddon.verifySignature st.mldsa d s pk))
  | .kemEncapsulate pk =>
      (st, .encapsed (LibOQSAddon.kemEncapsulate pk))
  | .kemDecapsulate sk ct =>
      (st, .buffer (LibOQSAddon.kemDecapsulate sk ct))

/-- State of a registry-backend instance after a sequence of method calls. -/
def LibOQSAddon.runOps (st : AddonState) (ops : List AddonOp) : AddonState :=
  ops.foldl (fun s op => (LibOQSAddon.execOp s op).1) st

/-- One step of the fixed backend: dispatch a method call on an instance. -/
def LibOQSDirectAddon.execOp (st : AddonState) (op : AddonOp) : AddonState × AddonOutput :=
  match op with
  | .generateKEMKeyPair r =>
      (st, .kemKeys (LibOQSDirectAddon.generateKEMKeyPair st.mlkem r))
  | .generateSignatureKeyPair r =>
      (st, .sigKeys (LibOQSDirectAddon.generateSignatureKeyPair st.mldsa r))
  | .signData d sk =>
      (st, .buffer (LibOQSDirectAddon.signData st.mldsa d sk))
  | .verifySignature d s pk =>
      (st, .flag (LibOQSDirectAddon.verifySignature st.mldsa d s pk))
  | .kemEncapsulate pk =>
      (st, .encapsed (LibOQSDirectAddon.kemEncapsulate pk))
  | .kemDecapsulate sk ct =>
      (st, .buffer (LibOQSDirectAddon.kemDecapsulate sk ct))

/-- State of a fixed-backend instance after a sequence of method calls. -/
def LibOQSDirectAddon.runOps (st : AddonState) (ops : List AddonOp) : AddonState :=
  ops.foldl (fun s op => (LibOQSDirectAddon.execOp s op).1) st

/-- Concrete ML-DSA-65 primitive instance used to evaluate the addon code at
explicit inputs: its verification relation accepts exactly one
(message, signature, key) triple, with the mandated 3309-byte signature size,
and its signing always emits one fixed 3309-byte signature. -/
def toyMLDSA : MLDSAPrim where
  keypair := fun _ => some (List.replicate 1952 3, List.replicate 4000 4)
  coreSign := fun _ _ => some (List.replicate 3309 2)
  coreVerify := fun m s pk =>
    (s == List.replicate 3309 7) && (m == [5]) && (pk == [1])
  coreSign_length := fun _ _ s h => by
    rw [show s = List.replicate 3309 2 from (Option.some.inj h).symm]
    exact List.length_replicate 3309 2
  coreVerify_length := fun m s pk h => by
    rw [Bool.and_eq_true, Bool.and_eq_true] at h
    rw [eq_of_beq h.1.1]
    exact List.length_replicate 3309 7

/-- Concrete ML-KEM-768 keypair primitive instance used to evaluate the addon
code at explicit inputs: its keypair call always succeeds without writing any
bytes of its own. -/
def toyMLKEM : MLKEMPrim where
  keypair := fun _ => some ([], [])

/-- Sample of the identifier lists the liboqs registry reports: liboqs
registers the whole ML-KEM and ML-DSA families (among other schemes), not
only the two algorithms the addon's keypair methods are hardcoded to. -/
def liboqsRegistrySample : OQSRegistry where
  kemAlgs := ["ML-KEM-512", "ML-KEM-768", "ML-KEM-1024"]
  sigAlgs := ["ML-DSA-44", "ML-DSA-65", "ML-DSA-87"]
  mlkem768_registered := by simp
  mldsa65_registered := by simp

/-! Helper lemmas about the buffer model. -/

/-- Writing a primitive's output into a pre-allocated buffer never changes the
buffer's size. -/
theorem writeInto_length (buf src : Bytes) : (writeInto buf src).length = buf.length := by
  unfold writeInto
  rw [List.length_append, List.length_take, List.length_drop]
  omega

/-- Writing an output of exactly the buffer's size yields exactly that output. -/
theorem writeInto_eq_self (buf src : Bytes) (h : src.length = buf.length) :
    writeInto buf src = src := by
  unfold writeInto
  rw [show min src.length buf.length = buf.length by rw [h, Nat.min_self],
    List.drop_length, List.append_nil, ← h, List.take_length]

/-- Taking the length of the first part of an appended buffer recovers it. -/
theorem take_append_of_length_eq (l₁ l₂ : Bytes) (n : Nat) (h : l₁.length = n) :
    (l₁ ++ l₂).take n = l₁ := by
  rw [List.take_append_eq_append_take, ← h, List.take_length, Nat.sub_self,
    List.take_zero, List.append_nil]

/-- Dropping the length of the first part of an appended buffer leaves the rest. -/
theorem drop_append_of_length_eq (l₁ l₂ : Bytes) (n : Nat) (h : l₁.length = n) :
    (l₁ ++ l₂).drop n = l₂ := by
  rw [List.drop_append_eq_append_drop, ← h, List.drop_length, Nat.sub_self,
    List.drop_zero, List.nil_append]

/-! Claim theorems. -/

/-- C1: the claim says every ML-KEM-768 encapsulation against a generated
public key succeeds and decapsulation returns the identical shared secret.
The code cannot satisfy this: in both backends `KEMEncapsulate` and
`KEMDecapsulate` are stubs that throw "not yet implemented" for every input,
evaluated here at well-formed buffers of the declared ML-KEM-768 lengths
(1184-byte public key, 2400-byte secret key, 1088-byte ciphertext). -/
theorem c1_kem_stubs_throw_for_every_input :
    LibOQSAddon.kemEncapsulate (List.replicate 1184 0) =
      NapiResult.thrown (AddonError.opError ("KEMEncapsulate not yet implemented")) ∧
    LibOQSDirectAddon.kemEncapsulate (List.replicate 1184 0) =
      NapiResult.thrown (AddonError.opError ("KEMEncapsulate not yet implemented")) ∧
    LibOQSAddon.kemDecapsulate (List.replicate 2400 0) (List.replicate 1088 0) =
      NapiResult.thrown (AddonError.opError ("KEMDecapsulate not yet implemented")) ∧
    LibOQSDirectAddon.kemDecapsulate (List.replicate 2400 0) (List.replicate 1088 0) =
      NapiResult.thrown (AddonError.opError ("KEMDecapsulate not yet implemented")) :=
  ⟨rfl, rfl, rfl, rfl⟩

/-- C2: the claim says wrong-length key or ciphertext buffers are rejected with
`InvalidKeyLength` / `InvalidCiphertextLength` before the primitive is invoked.
The code performs no length validation at all: both `VerifySignature`
implementations hand the raw buffers straight to the primitive — here shown
with an empty (0-byte, hence wrong-length) public key, where the call returns
`ok` of the primitive's verdict instead of any length error — and the
encapsulate/decapsulate paths throw their not-implemented error, never an
`InvalidCiphertextLength`, whatever the buffer lengths. -/
theorem c2_verify_invokes_primitive_without_length_check :
    LibOQSAddon.verifySignature toyMLDSA [] [] [] =
      NapiResult.ok (toyMLDSA.coreVerify [] [] []) ∧
    LibOQSDirectAddon.verifySignature toyMLDSA [] [] [] =
      NapiResult.ok ((toyMLDSA.cryptoSignOpen ([] ++ []) []).isSome) ∧
    LibOQSAddon.kemDecapsulate [] [] =
      NapiResult.thrown (AddonError.opError ("KEMDecapsulate not yet implemented")) ∧
    LibOQSDirectAddon.kemDecapsulate [] [] =
      NapiResult.thrown (AddonError.opError ("KEMDecapsulate not yet implemented")) :=
  ⟨rfl, rfl, rfl, rfl⟩

/-- C3: for any message, any signature buffer and a correctly-sized (1952-byte)
public key, both backends' `VerifySignature` always return a boolean — a
mismatched signature (the primitive reporting non-success) yields the value
`false`, never a thrown error — so an error could only ever be associated with
other inputs, such as a wrong-length public key. -/
theorem c3_verify_mismatch_is_false_not_error :
    ∀ (p : MLDSAPrim) (data signature public_key : Bytes),
      public_key.length = 1952 →
      (∃ b, LibOQSAddon.verifySignature p data signature public_key = NapiResult.ok b) ∧
      (∃ b, LibOQSDirectAddon.verifySignature p data signature public_key = NapiResult.ok b) ∧
      (p.coreVerify data signature public_key = false →
        LibOQSAddon.verifySignature p data signature public_key = NapiResult.ok false) ∧
      (p.cryptoSignOpen (signature ++ data) public_key = none →
        LibOQSDirectAddon.verifySignature p data signature public_key = NapiResult.ok false) := by
  intro p data signature public_key _
  refine ⟨⟨_, rfl⟩, ⟨_, rfl⟩, ?_, ?_⟩
  · intro h
    exact congrArg NapiResult.ok h
  · intro h
    show NapiResult.ok (p.cryptoSignOpen (signature ++ data) public_key).isSome = _
    rw [h]
    rfl

/-- Witness for C3 at a concrete input: empty message, empty signature and the
all-zero 1952-byte public key, where the toy primitive reports a mismatch. -/
theorem c3_witness :
    LibOQSAddon.verifySignature toyMLDSA [] [] (List.replicate 1952 0) =
      NapiResult.ok false := by
  have hfalse : toyMLDSA.coreVerify [] [] (List.replicate 1952 0) = false := by
    show (((([] : Bytes) == List.replicate 3309 7) && (([] : Bytes) == [5])) &&
      ((List.replicate 1952 0 : Bytes) == [1])) = false
    rw [show (([] : Bytes) == List.replicate 3309 7) = false from rfl]
    rfl
  exact (c3_verify_mismatch_is_false_not_error toyMLDSA [] [] (List.replicate 1952 0)
    (List.length_replicate 1952 0)).2.2.1 hfalse

/-- Inversion helper for the registry backend's `SignData`: a successful call
returns exactly the detached signature the primitive produced, with the buffer
resized to the primitive-reported length. -/
theorem registrySignData_ok (p : MLDSAPrim) (data secret_key out : Bytes)
    (h : LibOQSAddon.signData p data secret_key = NapiResult.ok out) :
    ∃ s, p.coreSign data secret_key = some s ∧ out = s := by
  unfold LibOQSAddon.signData at h
  split at h
  · exact nomatch h
  next s heq =>
    refine ⟨s, heq, ?_⟩
    have hs : s.length = 3309 := p.coreSign_length data secret_key s heq
    have hw : writeInto (List.replicate OQS_SIG_ml_dsa_65_length_signature 0) s = s :=
      writeInto_eq_self _ _ (by rw [List.length_replicate]; exact hs)
    have h2 : (writeInto (List.replicate OQS_SIG_ml_dsa_65_length_signature 0) s).take s.length
        = out := NapiResult.ok.inj h
    rw [← h2, hw, List.take_length]

/-- Inversion helper for the fixed backend's `SignData`: a successful call
returns exactly the first 3309 bytes of the combined signed-message buffer,
which is the detached signature the primitive produced. -/
theorem directSignData_ok (p : MLDSAPrim) (data secret_key out : Bytes)
    (h : LibOQSDirectAddon.signData p data secret_key = NapiResult.ok out) :
    ∃ s, p.coreSign data secret_key = some s ∧ out = s := by
  unfold LibOQSDirectAddon.signData at h
  split at h
  · exact nomatch h
  next sm heq =>
    rcases Option.map_eq_some'.mp heq with ⟨s, hs, hsm⟩
    refine ⟨s, hs, ?_⟩
    have hslen : s.length = 3309 := p.coreSign_length data secret_key s hs
    have hsmlen : sm.length = data.length + MLDSA65_SIGNATURE_BYTES := by
      rw [← hsm, List.length_append, hslen]
      exact Nat.add_comm 3309 data.length
    have hw : writeInto (List.replicate (data.length + MLDSA65_SIGNATURE_BYTES) 0) sm = sm :=
      writeInto_eq_self _ _ (by rw [List.length_replicate]; exact hsmlen)
    have h2 : (writeInto (List.replicate (data.length + MLDSA65_SIGNATURE_BYTES) 0) sm).take
        MLDSA65_SIGNATURE_BYTES = out := NapiResult.ok.inj h
    rw [← h2, hw, ← hsm]
    exact take_append_of_length_eq s data MLDSA65_SIGNATURE_BYTES hslen

/-- C4: in both backends a successful `SignData` call returns exactly the
detached signature the primitive produced — neither truncated nor padded to
`maxSignatureLen` — whose length is the primitive-reported actual signature
length, 3309 bytes for ML-DSA-65, which is at most `maxSignatureLen` (3309). -/
theorem c4_sign_returns_exact_unpadded_signature :
    ∀ (p : MLDSAPrim) (data secret_key out : Bytes),
      (LibOQSAddon.signData p data secret_key = NapiResult.ok out →
        ∃ s, p.coreSign data secret_key = some s ∧ out = s ∧
          out.length = 3309 ∧ out.length ≤ MLDSA65_SIGNATURE_BYTES) ∧
      (LibOQSDirectAddon.signData p data secret_key = NapiResult.ok out →
        ∃ s, p.coreSign data secret_key = some s ∧ out = s ∧
          out.length = 3309 ∧ out.length ≤ MLDSA65_SIGNATURE_BYTES) := by
  intro p data secret_key out
  constructor
  · intro h
    rcases registrySignData_ok p data secret_key out h with ⟨s, hs, hout⟩
    have hlen : out.length = 3309 := by
      rw [hout]
      exact p.coreSign_length data secret_key s hs
    exact ⟨s, hs, hout, hlen, le_of_eq hlen⟩
  · intro h
    rcases directSignData_ok p data secret_key out h with ⟨s, hs, hout⟩
    have hlen : out.length = 3309 := by
      rw [hout]
      exact p.coreSign_length data secret_key s hs
    exact ⟨s, hs, hout, hlen, le_of_eq hlen⟩

/-- Witness for C4 at a concrete input: signing the empty message with the toy
primitive returns its 3309-byte signature exactly. -/
theorem c4_witness :
    ∃ s, toyMLDSA.coreSign [] [] = some s ∧ (List.replicate 3309 2 : Bytes) = s ∧
      (List.replicate 3309 2 : Bytes).length = 3309 ∧
      (List.replicate 3309 2 : Bytes).length ≤ MLDSA65_SIGNATURE_BYTES := by
  have h2 : (writeInto (List.replicate OQS_SIG_ml_dsa_65_length_signature 0)
      (List.replicate 3309 2)).take (List.replicate 3309 2 : Bytes).length =
      List.replicate 3309 2 := by
    rw [writeInto_eq_self _ _ (by rw [List.length_replicate, List.length_replicate])]
    exact List.take_length _
  have h : LibOQSAddon.signData toyMLDSA [] [] = NapiResult.ok (List.replicate 3309 2) :=
    congrArg NapiResult.ok h2
  exact (c4_sign_returns_exact_unpadded_signature toyMLDSA [] [] (List.replicate 3309 2)).1 h

/-- C5: in both backends, a successful keypair generation returns buffers whose
lengths are exactly the declared algorithm lengths — 1184/2400 bytes for
ML-KEM-768 and 1952/4000 bytes for ML-DSA-65 — because the code allocates the
output vectors at those sizes and returns full-size copies. -/
theorem c5_generateKeyPair_exact_lengths :
    ∀ (kem : MLKEMPrim) (p : MLDSAPrim) (entropy : Nat),
      (∀ kp, LibOQSAddon.generateKEMKeyPair kem entropy = NapiResult.ok kp →
        kp.publicKey.length = 1184 ∧ kp.secretKey.length = 2400) ∧
      (∀ kp, LibOQSAddon.generateSignatureKeyPair p entropy = NapiResult.ok kp →
        kp.publicKey.length = 1952 ∧ kp.secretKey.length = 4000) ∧
      (∀ kp, LibOQSDirectAddon.generateKEMKeyPair kem entropy = NapiResult.ok kp →
        kp.publicKey.length = 1184 ∧ kp.secretKey.length = 2400) ∧
      (∀ kp, LibOQSDirectAddon.generateSignatureKeyPair p entropy = NapiResult.ok kp →
        kp.publicKey.length = 1952 ∧ kp.secretKey.length = 4000) := by
  intro kem p entropy
  refine ⟨?_, ?_, ?_, ?_⟩
  · intro kp h
    unfold LibOQSAddon.generateKEMKeyPair at h
    split at h
    · exact nomatch h
    next pk sk heq =>
      rw [← NapiResult.ok.inj h]
      constructor
      · show (writeInto (List.replicate OQS_KEM_ml_kem_768_length_public_key 0) pk).length = 1184
        rw [writeInto_length, List.length_replicate]
      · show (writeInto (List.replicate OQS_KEM_ml_kem_768_length_secret_key 0) sk).length = 2400
        rw [writeInto_length, List.length_replicate]
  · intro kp h
    unfold LibOQSAddon.generateSignatureKeyPair at h
    split at h
    · exact nomatch h
    next pk sk heq =>
      rw [← NapiResult.ok.inj h]
      constructor
      · show (writeInto (List.replicate OQS_SIG_ml_dsa_65_length_public_key 0) pk).length = 1952
        rw [writeInto_length, List.length_replicate]
      · show (writeInto (List.replicate OQS_SIG_ml_dsa_65_length_secret_key 0) sk).length = 4000
        rw [writeInto_length, List.length_replicate]
  · intro kp h
    unfold LibOQSDirectAddon.generateKEMKeyPair at h
    split at h
    · exact nomatch h
    next pk sk heq =>
      rw [← NapiResult.ok.inj h]
      constructor
      · show (writeInto (List.replicate MLKEM768_PUBLICKEYBYTES 0) pk).length = 1184
        rw [writeInto_length, List.length_replicate]
      · show (writeInto (List.replicate MLKEM768_SECRETKEYBYTES 0) sk).length = 2400
        rw [writeInto_length, List.length_replicate]
  · intro kp h
    unfold LibOQSDirectAddon.generateSignatureKeyPair at h
    split at h
    · exact nomatch h
    next pk sk heq =>
      rw [← NapiResult.ok.inj h]
      constructor
      · show (writeInto (List.replicate MLDSA65_PUBLICKEYBYTES 0) pk).length = 1952
        rw [writeInto_length, List.length_replicate]
      · show (writeInto (List.replicate MLDSA65_SECRETKEYBYTES 0) sk).length = 4000
        rw [writeInto_length, List.length_replicate]

/-- Witness for C5 at a concrete input: the toy ML-KEM-768 keypair call
succeeds and the returned buffers have the declared lengths. -/
theorem c5_witness :
    (writeInto (List.replicate 1184 0) ([] : Bytes)).length = 1184 ∧
    (writeInto (List.replicate 2400 0) ([] : Bytes)).length = 2400 :=
  (c5_generateKeyPair_exact_lengths toyMLKEM toyMLDSA 0).1
    { publicKey := writeInto (List.replicate 1184 0) []
      secretKey := writeInto (List.replicate 2400 0) []
      algorithm := "ML-KEM-768"
      publicKeyLength := 1184
      secretKeyLength := 2400
      ciphertextLength := 1088
      sharedSecretLength := 32 } rfl

/-- Helper: the `algorithm` label of every keypair either registry-backend
method can return is one of the two hardcoded names. -/
theorem LibOQSAddon.keypair_algorithm_accepted (kem : MLKEMPrim) (p : MLDSAPrim)
    (entropy : Nat) :
    (∀ kp, LibOQSAddon.generateKEMKeyPair kem entropy = NapiResult.ok kp →
      kp.algorithm ∈ LibOQSAddon.acceptedKeypairAlgorithms) ∧
    (∀ kp, LibOQSAddon.generateSignatureKeyPair p entropy = NapiResult.ok kp →
      kp.algorithm ∈ LibOQSAddon.acceptedKeypairAlgorithms) := by
  constructor
  · intro kp h
    unfold LibOQSAddon.generateKEMKeyPair at h
    split at h
    · exact nomatch h
    next pk sk heq =>
      rw [← NapiResult.ok.inj h]
      show "ML-KEM-768" ∈ LibOQSAddon.acceptedKeypairAlgorithms
      simp [LibOQSAddon.acceptedKeypairAlgorithms]
  · intro kp h
    unfold LibOQSAddon.generateSignatureKeyPair at h
    split at h
    · exact nomatch h
    next pk sk heq =>
      rw [← NapiResult.ok.inj h]
      show "ML-DSA-65" ∈ LibOQSAddon.acceptedKeypairAlgorithms
      simp [LibOQSAddon.acceptedKeypairAlgorithms]

/-- C6 counterexample: with the liboqs registry, `GetAvailableAlgorithms` lists
"ML-KEM-512", yet no keypair-generation call of the addon accepts or produces
it — keypair generation takes no algorithm argument and is hardcoded to
ML-KEM-768 / ML-DSA-65 — so the listed set and the accepted set differ. -/
theorem c6_counterexample_listed_algorithm_not_accepted :
    ((LibOQSAddon.getAvailableAlgorithms liboqsRegistrySample).1.contains "ML-KEM-512") = true ∧
    (LibOQSAddon.acceptedKeypairAlgorithms.contains "ML-KEM-512") = false := by
  constructor
  · decide
  · decide

/-- C6 amended: the inclusion that does hold — every algorithm the addon's
keypair generation can produce ("ML-KEM-768" and "ML-DSA-65") appears in the
registry backend's listed set, since liboqs registers both; the listed set is
however strictly larger in general. -/
theorem c6_accepted_subset_of_listed :
    ∀ (reg : OQSRegistry) (a : String),
      a ∈ LibOQSAddon.acceptedKeypairAlgorithms →
      a ∈ (LibOQSAddon.getAvailableAlgorithms reg).1 ∨
      a ∈ (LibOQSAddon.getAvailableAlgorithms reg).2 := by
  intro reg a ha
  have h2 : a = "ML-KEM-768" ∨ a = "ML-DSA-65" := by
    simpa [LibOQSAddon.acceptedKeypairAlgorithms] using ha
  rcases h2 with h | h
  · rw [h]
    exact Or.inl reg.mlkem768_registered
  · rw [h]
    exact Or.inr reg.mldsa65_registered

/-- Witness for C6 at a concrete input: "ML-KEM-768" is accepted and is listed
by the sample liboqs registry. -/
theorem c6_witness :
    "ML-KEM-768" ∈ (LibOQSAddon.getAvailableAlgorithms liboqsRegistrySample).1 ∨
    "ML-KEM-768" ∈ (LibOQSAddon.getAvailableAlgorithms liboqsRegistrySample).2 :=
  c6_accepted_subset_of_listed liboqsRegistrySample "ML-KEM-768"
    (by simp [LibOQSAddon.acceptedKeypairAlgorithms])

/-- Helper: a registry-backend method call never changes the instance state
(the C++ class has no mutable data members). -/
theorem registryExecOp_state (st : AddonState) (op : AddonOp) :
    (LibOQSAddon.execOp st op).1 = st := by
  cases op <;> rfl

/-- Helper: a fixed-backend method call never changes the instance state. -/
theorem directExecOp_state (st : AddonState) (op : AddonOp) :
    (LibOQSDirectAddon.execOp st op).1 = st := by
  cases op <;> rfl

/-- Helper: any sequence of registry-backend method calls leaves the instance
state unchanged. -/
theorem registryRunOps_state (st : AddonState) (ops : List AddonOp) :
    LibOQSAddon.runOps st ops = st := by
  induction ops with
  | nil => rfl
  | cons op ops ih =>
      unfold LibOQSAddon.runOps
      rw [List.foldl_cons, registryExecOp_state]
      exact ih

/-- Helper: any sequence of fixed-backend method calls leaves the instance
state unchanged. -/
theorem directRunOps_state (st : AddonState) (ops : List AddonOp) :
    LibOQSDirectAddon.runOps st ops = st := by
  induction ops with
  | nil => rfl
  | cons op ops ih =>
      unfold LibOQSDirectAddon.runOps
      rw [List.foldl_cons, directExecOp_state]
      exact ih

/-- C7: in either backend, the result of a `VerifySignature` call after any
sequence of other method calls (sign calls included) equals the pure function
of exactly (message, signature, publicKey) — and the primitive bindings —
computed on a fresh instance: no operation mutates any state that verification
reads. -/
theorem c7_verify_pure_function_of_inputs :
    ∀ (st : AddonState) (ops : List AddonOp) (data signature public_key : Bytes),
      (LibOQSAddon.execOp (LibOQSAddon.runOps st ops)
          (AddonOp.verifySignature data signature public_key)).2 =
        AddonOutput.flag (LibOQSAddon.verifySignature st.mldsa data signature public_key) ∧
      (LibOQSDirectAddon.execOp (LibOQSDirectAddon.runOps st ops)
          (AddonOp.verifySignature data signature public_key)).2 =
        AddonOutput.flag (LibOQSDirectAddon.verifySignature st.mldsa data signature public_key) ∧
      LibOQSAddon.runOps st ops = st ∧
      LibOQSDirectAddon.runOps st ops = st := by
  intro st ops data signature public_key
  have h1 := registryRunOps_state st ops
  have h2 := directRunOps_state st ops
  rw [h1, h2]
  exact ⟨rfl, rfl, rfl, rfl⟩

/-- Helper: whenever the reconstructed signed message `signature ++ data`
happens to equal the toy primitive's one accepted signed message — the
3309-byte signature followed by the message byte 5 — the fixed backend's
verify answers true, however the bytes were split between the two buffers. -/
theorem directVerify_true_aux (data signature : Bytes)
    (h : signature ++ data = List.replicate 3309 7 ++ [5]) :
    LibOQSDirectAddon.verifySignature toyMLDSA data signature [1] = NapiResult.ok true := by
  show NapiResult.ok ((toyMLDSA.cryptoSignOpen (signature ++ data) [1]).isSome) = _
  rw [h]
  have hlen : (3309 : Nat) ≤ (List.replicate 3309 7 ++ [5]).length := by
    rw [List.length_append, List.length_replicate]
    omega
  have htake : (List.replicate 3309 7 ++ [5]).take 3309 = List.replicate 3309 7 :=
    take_append_of_length_eq _ _ _ (List.length_replicate 3309 7)
  have hdrop : (List.replicate 3309 7 ++ [5]).drop 3309 = [5] :=
    drop_append_of_length_eq _ _ _ (List.length_replicate 3309 7)
  have hcv : toyMLDSA.coreVerify ((List.replicate 3309 7 ++ [5]).drop 3309)
      ((List.replicate 3309 7 ++ [5]).take 3309) [1] = true := by
    rw [htake, hdrop]
    show (((List.replicate 3309 7 == List.replicate 3309 7) && (([5] : Bytes) == [5])) &&
      (([1] : Bytes) == [1])) = true
    rw [beq_self_eq_true]
    rfl
  unfold MLDSAPrim.cryptoSignOpen
  rw [if_pos ⟨hlen, hcv⟩]
  rfl

/-- C8 counterexample: the two backends are not interchangeable on verify. At
the empty message with a 3310-byte signature buffer (a valid 3309-byte
signature with the message byte appended), the registry backend rejects the
wrong-length signature with false, while the fixed backend re-splits the
reconstructed buffer at byte 3309 and answers true. -/
theorem c8_counterexample_backends_disagree :
    LibOQSAddon.verifySignature toyMLDSA [] (List.replicate 3309 7 ++ [5]) [1] =
      NapiResult.ok false ∧
    LibOQSDirectAddon.verifySignature toyMLDSA [] (List.replicate 3309 7 ++ [5]) [1] =
      NapiResult.ok true := by
  constructor
  · have hs : ((List.replicate 3309 7 ++ [5] : Bytes) == List.replicate 3309 7) = false := by
      rw [beq_eq_false_iff_ne]
      intro hh
      have hl := congrArg List.length hh
      rw [List.length_append, List.length_replicate, List.length_cons,
        List.length_nil] at hl
      omega
    have hb : toyMLDSA.coreVerify [] (List.replicate 3309 7 ++ [5]) [1] = false := by
      show ((((List.replicate 3309 7 ++ [5] : Bytes) == List.replicate 3309 7) &&
        (([] : Bytes) == [5])) && (([1] : Bytes) == [1])) = false
      rw [hs]
      rfl
    exact congrArg NapiResult.ok hb
  · exact directVerify_true_aux [] (List.replicate 3309 7 ++ [5]) (List.append_nil _)

/-- C8 amended: the two backends return the same boolean whenever the
signature buffer has the correct ML-DSA-65 signature length of 3309 bytes;
for other signature lengths they may disagree (the fixed backend re-splits
`signature ++ data` at byte 3309). -/
theorem c8_backends_agree_on_correct_length_signatures :
    ∀ (p : MLDSAPrim) (data signature public_key : Bytes),
      signature.length = 3309 →
      LibOQSAddon.verifySignature p data signature public_key =
        LibOQSDirectAddon.verifySignature p data signature public_key := by
  intro p data s pk h
  show NapiResult.ok (p.coreVerify data s pk) =
    NapiResult.ok ((p.cryptoSignOpen (s ++ data) pk).isSome)
  have htake : (s ++ data).take 3309 = s := take_append_of_length_eq _ _ _ h
  have hdrop : (s ++ data).drop 3309 = data := drop_append_of_length_eq _ _ _ h
  have hlen : (3309 : Nat) ≤ (s ++ data).length := by
    rw [List.length_append, h]
    omega
  unfold MLDSAPrim.cryptoSignOpen
  simp only [htake, hdrop]
  by_cases hb : p.coreVerify data s pk = true
  · rw [if_pos ⟨hlen, hb⟩, hb]
    rfl
  · have hbf : p.coreVerify data s pk = false := by
      cases hcv : p.coreVerify data s pk
      · rfl
      · exact absurd hcv hb
    rw [if_neg (fun hc => hb hc.2), hbf]
    rfl

/-- Witness for C8 at a concrete input: on the toy primitive's accepted triple
— message byte 5, the full 3309-byte signature, key byte 1 — the two backends
agree. -/
theorem c8_witness :
    LibOQSAddon.verifySignature toyMLDSA [5] (List.replicate 3309 7) [1] =
      LibOQSDirectAddon.verifySignature toyMLDSA [5] (List.replicate 3309 7) [1] :=
  c8_backends_agree_on_correct_length_signatures toyMLDSA [5] (List.replicate 3309 7) [1]
    (List.length_replicate 3309 7)

/-- C9: in the fixed backend a successful `SignData` always returns exactly
3309 bytes (`MLDSA65_SIGNATURE_BYTES`) whatever the message length — the
output is the first 3309 bytes of the combined signed-message buffer the
primitive produced. -/
theorem c9_direct_signature_always_3309 :
    ∀ (p : MLDSAPrim) (data secret_key out : Bytes),
      LibOQSDirectAddon.signData p data secret_key = NapiResult.ok out →
      out.length = 3309 ∧
      ∃ sm, p.cryptoSign data secret_key = some sm ∧ out = sm.take 3309 := by
  intro p data secret_key out h
  rcases directSignData_ok p data secret_key out h with ⟨s, hs, hout⟩
  have hslen : s.length = 3309 := p.coreSign_length data secret_key s hs
  constructor
  · rw [hout]
    exact hslen
  · refine ⟨s ++ data, ?_, ?_⟩
    · unfold MLDSAPrim.cryptoSign
      rw [hs]
      rfl
    · rw [hout]
      exact (take_append_of_length_eq s data 3309 hslen).symm

/-- Witness for C9 at a concrete input: signing the empty message with the toy
primitive in the fixed backend yields its 3309-byte signature. -/
theorem c9_witness :
    (List.replicate 3309 2 : Bytes).length = 3309 ∧
    ∃ sm, toyMLDSA.cryptoSign [] [] = some sm ∧
      (List.replicate 3309 2 : Bytes) = sm.take 3309 := by
  have h2 : (writeInto (List.replicate ((List.length ([] : Bytes)) + MLDSA65_SIGNATURE_BYTES) 0)
      (List.replicate 3309 2 ++ ([] : Bytes))).take MLDSA65_SIGNATURE_BYTES =
      List.replicate 3309 2 := by
    rw [List.append_nil]
    rw [writeInto_eq_self _ _ (by
      rw [List.length_replicate, List.length_replicate, List.length_nil]
      exact (Nat.zero_add 3309).symm)]
    exact List.take_of_length_le (le_of_eq (List.length_replicate 3309 2))
  have h : LibOQSDirectAddon.signData toyMLDSA [] [] =
      NapiResult.ok (List.replicate 3309 2) :=
    congrArg NapiResult.ok h2
  exact c9_direct_signature_always_3309 toyMLDSA [] [] (List.replicate 3309 2) h

/-- C10 counterexample: the fixed backend's verify does NOT return false for
every wrong-length signature buffer. A truncated 3308-byte signature together
with a message supplying the missing byte re-parses as the accepted signed
message, and verify answers true. -/
theorem c10_counterexample_direct_accepts_wrong_length :
    LibOQSDirectAddon.verifySignature toyMLDSA [7, 5] (List.replicate 3308 7) [1] =
      NapiResult.ok true ∧
    (List.replicate 3308 7 : Bytes).length = 3308 := by
  constructor
  · apply directVerify_true_aux
    have h1 : List.replicate 3309 7 = List.replicate 3308 7 ++ [7] :=
      List.replicate_succ' 3308 7
    rw [h1, List.append_assoc]
    rfl
  · exact List.length_replicate 3308 7

/-- C10 amended: neither backend ever throws for any signature length, and the
registry backend returns false for every signature whose length is not 3309
(the primitive's non-success status is mapped to the boolean false); the fixed
backend also maps the primitive status to a boolean, but that boolean need not
be false for wrong-length signatures. -/
theorem c10_no_error_and_registry_false_on_wrong_length :
    ∀ (p : MLDSAPrim) (data signature public_key : Bytes),
      (∃ b, LibOQSAddon.verifySignature p data signature public_key = NapiResult.ok b) ∧
      (∃ b, LibOQSDirectAddon.verifySignature p data signature public_key = NapiResult.ok b) ∧
      (signature.length ≠ 3309 →
        LibOQSAddon.verifySignature p data signature public_key = NapiResult.ok false) := by
  intro p data s pk
  refine ⟨⟨_, rfl⟩, ⟨_, rfl⟩, ?_⟩
  intro hlen
  have hb : p.coreVerify data s pk = false := by
    cases hcv : p.coreVerify data s pk
    · rfl
    · exact absurd (p.coreVerify_length data s pk hcv) hlen
  exact congrArg NapiResult.ok hb

/-- Witness for C10 at a concrete input: the empty signature buffer has the
wrong length and the registry backend returns false. -/
theorem c10_witness :
    LibOQSAddon.verifySignature toyMLDSA [] [] [] = NapiResult.ok false :=
  (c10_no_error_and_registry_false_on_wrong_length toyMLDSA [] [] []).2.2
    (by rw [List.length_nil]; omega)
